import Mathlib

/-!
Shallow embedding of `src/index.js`: a Firebase cloud function that reads
all users and all journal entries from a document store, asks an external
chat-completion API for per-user insights, and writes the results back in
one atomic batch.

Modelling conventions:
* JavaScript field values stored in documents are `JsValue` (string, number,
  boolean or null); an absent/undefined field is `Option.none`.
* Machine numbers only occur as integral document values and timestamps, so
  they are modelled as `Int`.
* Thrown JavaScript errors are `JsError`; fallible code returns `Except`.
* The HTTP transport is a parameter: the n-th call to `fetch` either rejects
  (`Except.error`) or yields a `ChatResponse`, the already-JSON-parsed parts
  of the HTTP response that the code reads (`ok`, `status`,
  `error.message` of the error body, `choices[0].message.content`).
* `console.error(msg, err)` is recorded as a `LogEntry` in an output list.
* The Firestore batch write is modelled by collecting the `set` operations
  and applying them atomically on commit, per the store's batched-write
  contract.
-/

/-- A JavaScript value as it can be stored in a document field. -/
inductive JsValue where
  | str (s : String)
  | num (n : Int)
  | bool (b : Bool)
  | nullv
deriving Repr, DecidableEq

/-- A thrown JavaScript error: `new Error(msg)`, a TypeError from accessing a
property of undefined/null, or `functions.https.HttpsError(code, msg)`. -/
inductive JsError where
  | error (message : String)
  | typeError (message : String)
  | httpsError (code : String) (message : String)
deriving Repr, DecidableEq

/-- One `console.error(label, err)` record. -/
abbrev LogEntry := String × JsError

/-- JavaScript `v.toString()` on a document value; `none` when it throws
(`toString` of `null`; an absent field is handled at the call site). -/
def jsToString : JsValue → Option String
  | .str s => some s
  | .num n => some (toString n)
  | .bool b => some (if b then "true" else "false")
  | .nullv => none

/-- A raw document of the `app_users` collection: only its `uid` field is
read by the code. `none` means the field is absent. -/
structure UserDoc where
  uid : Option JsValue
deriving Repr, DecidableEq

/-- The record `getAllUser` builds per user document. -/
structure User where
  uid : String
deriving Repr, DecidableEq

/-- A raw document of the `user_journals` collection (the four fields the
code reads; each may be absent). -/
structure JournalDoc where
  uid : Option JsValue
  rememberThisDayBy : Option JsValue
  moodToday : Option JsValue
  challenges : Option JsValue
deriving Repr, DecidableEq

/-- The record `getUsersJournals` builds per journal document: the four
fields taken verbatim (an absent field stays absent). -/
structure JournalEntry where
  uid : Option JsValue
  rememberThisDayBy : Option JsValue
  moodToday : Option JsValue
  challenges : Option JsValue
deriving Repr, DecidableEq

/-- Embedding of `getAllUser` (src/index.js:13-18): map every document of
`app_users` to `\x7buid: doc.data().uid.toString()\x7d`. When a document's
`uid` field is absent or null, `.toString()` throws a TypeError, which
aborts the whole map. -/
def getAllUser : List UserDoc → Except JsError (List User)
  | [] => .ok []
  | d :: rest =>
    match d.uid.bind jsToString with
    | some s =>
      match getAllUser rest with
      | .ok us => .ok (⟨s⟩ :: us)
      | .error e => .error e
    | none => .error (.typeError "Cannot read properties of undefined (reading toString)")

/-- Embedding of `getUsersJournals` (src/index.js:26-34): map every document
of `user_journals` to its four fields, verbatim, in fetch order. -/
def getUsersJournals (docs : List JournalDoc) : List JournalEntry :=
  docs.map (fun d => ⟨d.uid, d.rememberThisDayBy, d.moodToday, d.challenges⟩)

/-- JavaScript strict equality `journal.uid === userId` where `userId` is a
string: true exactly when the stored value is that string. -/
def strictEqStr : Option JsValue → String → Bool
  | some (.str s), t => s = t
  | _, _ => false

/-- Hexadecimal digit for JSON `\\u00XX` escapes. -/
def hexDigit (n : Nat) : String :=
  if n < 10 then toString n
  else if n = 10 then "a" else if n = 11 then "b" else if n = 12 then "c"
  else if n = 13 then "d" else if n = 14 then "e" else "f"

/-- JSON.stringify escaping of one character inside a string literal. -/
def jsonEscapeChar (c : Char) : String :=
  if c = Char.ofNat 34 then "\\\""
  else if c = Char.ofNat 92 then "\\\\"
  else if c = Char.ofNat 8 then "\\b"
  else if c = Char.ofNat 9 then "\\t"
  else if c = Char.ofNat 10 then "\\n"
  else if c = Char.ofNat 12 then "\\f"
  else if c = Char.ofNat 13 then "\\r"
  else if c.toNat < 32 then "\\u00" ++ hexDigit (c.toNat / 16) ++ hexDigit (c.toNat % 16)
  else String.singleton c

/-- JSON.stringify of a string value. -/
def jsonOfString (s : String) : String :=
  "\"" ++ String.join (s.data.map jsonEscapeChar) ++ "\""

/-- JSON.stringify of one stored value. -/
def jsonOfValue : JsValue → String
  | .str s => jsonOfString s
  | .num n => toString n
  | .bool b => if b then "true" else "false"
  | .nullv => "null"

/-- The fields of a journal entry in object-literal order, with
undefined-valued fields omitted, as JSON.stringify does. -/
def jsonFields (j : JournalEntry) : List (String × JsValue) :=
  ([("uid", j.uid), ("rememberThisDayBy", j.rememberThisDayBy),
    ("moodToday", j.moodToday), ("challenges", j.challenges)].filterMap
    (fun p => p.2.map (fun v => (p.1, v))))

/-- JSON.stringify of one journal entry object. -/
def jsonOfEntry (j : JournalEntry) : String :=
  "\x7b" ++ String.intercalate ","
    ((jsonFields j).map (fun p => jsonOfString p.1 ++ ":" ++ jsonOfValue p.2)) ++ "\x7d"

/-- Embedding of `JSON.stringify(userJournals)` (src/index.js:50). -/
def jsonStringifyJournals (l : List JournalEntry) : String :=
  "[" ++ String.intercalate "," (l.map jsonOfEntry) ++ "]"

/-- The apostrophe character, used inside the prompt template. -/
def apos : String := String.singleton (Char.ofNat 39)

/-- The text of the template literal (src/index.js:86-92) before the
interpolated journals string. -/
def promptHead : String :=
  "Respond as the second person (You), who was asked thes\n" ++
  "                    three questions: [My mood today?, I" ++ apos ++
  "ll remember this day by?\n" ++
  "                    , Challenges I" ++ apos ++
  "m facing] on a daily basis, and his answers\n" ++
  "              were these: "

/-- The text of the template literal after the interpolated journals
string. -/
def promptTail : String :=
  ". Based on these entries, give him three\n" ++
  "               insights about him. Respond with a single List<String>\n" ++
  "                containing a maximum of 3 strings in the following format:\n" ++
  "                        [" ++ apos ++ "Insight 1" ++ apos ++ ", " ++ apos ++
  "Insight 2" ++ apos ++ ", " ++ apos ++ "Insight 3" ++ apos ++ "]"

/-- The hardcoded (empty) API key of src/index.js:72. -/
def openAIKey : String := ""

/-- One message of the chat-completion request body. -/
structure ChatMessage where
  role : String
  content : String
deriving Repr, DecidableEq

/-- The JSON body of the chat-completion request
(`\x7bmodel, messages, max_tokens\x7d`). -/
structure ChatRequestBody where
  model : String
  messages : List ChatMessage
  max_tokens : Nat
deriving Repr, DecidableEq

/-- The HTTP request `fetch` is called with (src/index.js:75-97). -/
structure HttpRequest where
  url : String
  method : String
  headers : List (String × String)
  body : ChatRequestBody
deriving Repr, DecidableEq

/-- The request `fetchInsightsFromOpenAI` sends for a given serialized
journals string. -/
def openAIRequest (journals : String) : HttpRequest :=
  { url := "https://api.openai.com/v1/chat/completions"
    method := "POST"
    headers := [("Content-Type", "application/json"),
                ("Authorization", "Bearer " ++ openAIKey)]
    body := { model := "gpt-3.5-turbo"
              messages := [{ role := "user"
                             content := promptHead ++ journals ++ promptTail }]
              max_tokens := 3000 } }

/-- The parts of an HTTP response that the code reads: `response.ok`,
`response.status`, the error body's `error.message` (read only when not ok)
and `choices[0].message.content` of the success body (read only when ok). -/
structure ChatResponse where
  ok : Bool
  status : Nat
  errorMessage : String
  content : String
deriving Repr, DecidableEq

/-- The observable behaviour of one call to `fetchInsightsFromOpenAI`: the
HTTP request it issued, its `console.error` log entries, and either the raw
reply text or the thrown error. -/
structure FetchResult where
  request : HttpRequest
  logs : List LogEntry
  result : Except JsError String
deriving Repr

/-- Embedding of `fetchInsightsFromOpenAI` (src/index.js:71-110) given the
transport's behaviour for this call (`Except.error` = the fetch/parse
itself rejected). A non-ok status raises
`Error("HTTP <status>: <error.message>")`; every error is logged under
"Error fetching insights:" and re-raised unchanged; on success the raw
`choices[0].message.content` text is returned as-is. -/
def fetchInsightsFromOpenAI (tresp : Except JsError ChatResponse) (journals : String) :
    FetchResult :=
  match tresp with
  | .error e => ⟨openAIRequest journals, [("Error fetching insights:", e)], .error e⟩
  | .ok resp =>
    if resp.ok then ⟨openAIRequest journals, [], .ok resp.content⟩
    else
      let e := JsError.error ("HTTP " ++ toString resp.status ++ ": " ++ resp.errorMessage)
      ⟨openAIRequest journals, [("Error fetching insights:", e)], .error e⟩

/-- One element of the output list of `generateUserInsights`
(`\x7binsight, uid\x7d`). -/
structure Insight where
  insight : String
  uid : String
deriving Repr, DecidableEq

/-- The observable outcome of `generateUserInsights`: the chat-completion
requests issued, the log entries, and the returned list or thrown error. -/
structure GenResult where
  requests : List HttpRequest
  logs : List LogEntry
  result : Except JsError (List Insight)
deriving Repr

/-- The per-user loop of `generateUserInsights` (src/index.js:46-59).
`k` counts the chat-completion calls made so far, so `transport k` is the
transport's behaviour for the next call. A user whose journal filter is
empty makes no call and adds nothing; otherwise the client is called with
`JSON.stringify` of the filtered journals, a thrown error aborts the loop
(the insights collected so far are discarded with the local variable), and
a truthy (non-empty) reply is appended as `\x7binsight, uid\x7d`. -/
def genLoop (journals : List JournalEntry) (transport : Nat → Except JsError ChatResponse) :
    List User → Nat → GenResult
  | [], _ => ⟨[], [], .ok []⟩
  | u :: rest, k =>
    let userJournals := journals.filter (fun j => strictEqStr j.uid u.uid)
    if userJournals.length > 0 then
      let data := jsonStringifyJournals userJournals
      let f := fetchInsightsFromOpenAI (transport k) data
      match f.result with
      | .error e => ⟨[f.request], f.logs, .error e⟩
      | .ok response =>
        let r := genLoop journals transport rest (k + 1)
        ⟨f.request :: r.requests, f.logs ++ r.logs,
          match r.result with
          | .error e => .error e
          | .ok lst => .ok (if response = "" then lst else ⟨response, u.uid⟩ :: lst)⟩
    else genLoop journals transport rest k

/-- Embedding of `generateUserInsights` (src/index.js:41-62): fetch all
users and all journals, then run the sequential per-user loop. A failure
of `getAllUser` propagates before any API call. -/
def generateUserInsights (userDocs : List UserDoc) (journalDocs : List JournalDoc)
    (transport : Nat → Except JsError ChatResponse) : GenResult :=
  match getAllUser userDocs with
  | .error e => ⟨[], [], .error e⟩
  | .ok users => genLoop (getUsersJournals journalDocs) transport users 0

/-- A document of the `users_insights` collection as written by the batch. -/
structure InsightDoc where
  insights : String
  uid : String
  createdAt : Int
deriving Repr, DecidableEq

/-- The `users_insights` collection, keyed by document id. -/
def Store := String → Option InsightDoc

/-- One `batch.set(ref, doc)` operation (src/index.js:118-123). -/
structure SetOp where
  collection : String
  docId : String
  doc : InsightDoc
deriving Repr, DecidableEq

/-- Atomic application of a committed batch: each `set` replaces the
document at its id wholesale (set, not merge). -/
def applyBatch (pre : Store) (ops : List SetOp) : Store :=
  ops.foldl (fun s op => fun k => if k = op.docId then some op.doc else s k) pre

/-- The success value returned to the caller of the callable function. -/
structure CallResult where
  message : String
deriving Repr, DecidableEq

/-- The observable outcome of one invocation of `addInsights`: logs,
requests issued, the batch's `set` operations, the `users_insights`
collection after the invocation, and the value returned or error thrown to
the caller. -/
structure InvocationResult where
  logs : List LogEntry
  requests : List HttpRequest
  batchOps : List SetOp
  finalStore : Store
  outcome : Except JsError CallResult

/-- Embedding of the callable `addInsights` (src/index.js:112-133).
`commitRes` is the store's behaviour for `batch.commit()` and `now` the
epoch-milliseconds clock reading used for `createdAt`; `pre` is the
`users_insights` collection before the invocation. Any error thrown inside
the try block is logged under "Error adding insights:" and replaced by the
generic `HttpsError("internal", "Failed to add insights.")`. -/
def addInsights (userDocs : List UserDoc) (journalDocs : List JournalDoc)
    (transport : Nat → Except JsError ChatResponse)
    (commitRes : Except JsError Unit) (now : Int) (pre : Store) : InvocationResult :=
  let g := generateUserInsights userDocs journalDocs transport
  match g.result with
  | .error e =>
    ⟨g.logs ++ [("Error adding insights:", e)], g.requests, [], pre,
      .error (.httpsError "internal" "Failed to add insights.")⟩
  | .ok insightsList =>
    let ops := insightsList.map
      (fun i => ⟨"users_insights", i.uid, ⟨i.insight, i.uid, now⟩⟩)
    match commitRes with
    | .ok _ =>
      ⟨g.logs, g.requests, ops, applyBatch pre ops, .ok ⟨"Insights added successfully."⟩⟩
    | .error e =>
      ⟨g.logs ++ [("Error adding insights:", e)], g.requests, ops, pre,
        .error (.httpsError "internal" "Failed to add insights.")⟩

/-- The generic error `addInsights` throws to its caller on any failure. -/
def genericFailure : JsError := .httpsError "internal" "Failed to add insights."

/-- Statement-side form of the uid coercion `getAllUser` performs on one
document (total; the default is never reached when the field is present). -/
def coerceUid (d : UserDoc) : User := ⟨(d.uid.bind jsToString).getD ""⟩

/-- The single journal document of the C2 scenario:
`\x7buid:"u1", moodToday:"ok", rememberThisDayBy:"coffee", challenges:"none"\x7d`. -/
def c2JournalDoc : JournalDoc :=
  ⟨some (.str "u1"), some (.str "coffee"), some (.str "ok"), some (.str "none")⟩

/-- The JSON text `JSON.stringify` produces for the C2 scenario's single
filtered journal record. -/
def c2ExpectedJson : String :=
  "[\x7b\"uid\":\"u1\",\"rememberThisDayBy\":\"coffee\",\"moodToday\":\"ok\",\"challenges\":\"none\"\x7d]"

/-- A transport whose every reply is a success with the given content. -/
def constReply (content : String) : Nat → Except JsError ChatResponse :=
  fun _ => .ok ⟨true, 200, "", content⟩

/-- The journals selected for one user inside the loop
(`journals.filter((journal) => journal.uid === userId)`). -/
def userJournalsOf (journals : List JournalEntry) (u : User) : List JournalEntry :=
  journals.filter (fun j => strictEqStr j.uid u.uid)

/-- The client call the loop makes for one user: `fetchInsightsFromOpenAI`
applied to the k-th transport behaviour and the serialized filtered
journals. -/
def fetchOf (journals : List JournalEntry) (t : Nat → Except JsError ChatResponse)
    (u : User) (k : Nat) : FetchResult :=
  fetchInsightsFromOpenAI (t k) (jsonStringifyJournals (userJournalsOf journals u))

/-! ## Supporting lemmas -/

theorem genLoop_nil (journals : List JournalEntry)
    (t : Nat → Except JsError ChatResponse) (k : Nat) :
    genLoop journals t [] k = ⟨[], [], .ok []⟩ := rfl

theorem genLoop_cons_def (journals : List JournalEntry)
    (t : Nat → Except JsError ChatResponse) (u : User) (rest : List User) (k : Nat) :
    genLoop journals t (u :: rest) k =
      (if (userJournalsOf journals u).length > 0 then
        match (fetchOf journals t u k).result with
        | .error e =>
          ⟨[(fetchOf journals t u k).request], (fetchOf journals t u k).logs, .error e⟩
        | .ok response =>
          ⟨(fetchOf journals t u k).request :: (genLoop journals t rest (k + 1)).requests,
           (fetchOf journals t u k).logs ++ (genLoop journals t rest (k + 1)).logs,
           match (genLoop journals t rest (k + 1)).result with
           | .error e => .error e
           | .ok lst => .ok (if response = "" then lst else ⟨response, u.uid⟩ :: lst)⟩
      else genLoop journals t rest k) := rfl

theorem genLoop_ok_mem (journals : List JournalEntry)
    (t : Nat → Except JsError ChatResponse) :
    ∀ (us : List User) (k : Nat) (lst : List Insight),
      (genLoop journals t us k).result = .ok lst →
      ∀ e ∈ lst, (∃ u ∈ us, u.uid = e.uid) ∧
        ∃ j ∈ journals, strictEqStr j.uid e.uid = true := by
  intro us
  induction us with
  | nil =>
    intro k lst h e he
    rw [genLoop_nil] at h
    simp at h
    subst h
    simp at he
  | cons u rest ih =>
    intro k lst h e he
    rw [genLoop_cons_def] at h
    split at h
    case isTrue hc =>
      split at h
      case h_1 e2 heq => simp at h
      case h_2 response heq =>
        simp only [] at h
        cases hr : (genLoop journals t rest (k + 1)).result with
        | error e2 => rw [hr] at h; simp at h
        | ok lst2 =>
          rw [hr] at h
          simp only [Except.ok.injEq] at h
          by_cases hresp : response = ""
          · rw [if_pos hresp] at h
            subst h
            obtain ⟨⟨u2, hu2, hu2e⟩, hj⟩ := ih (k + 1) lst2 hr e he
            exact ⟨⟨u2, List.mem_cons_of_mem u hu2, hu2e⟩, hj⟩
          · rw [if_neg hresp] at h
            subst h
            rcases List.mem_cons.mp he with hh | hh
            · subst hh
              obtain ⟨j, hjmem⟩ := List.length_pos_iff_exists_mem.mp hc
              have hjf := List.mem_filter.mp hjmem
              exact ⟨⟨u, List.mem_cons_self u rest, rfl⟩, ⟨j, hjf.1, hjf.2⟩⟩
            · obtain ⟨⟨u2, hu2, hu2e⟩, hj⟩ := ih (k + 1) lst2 hr e hh
              exact ⟨⟨u2, List.mem_cons_of_mem u hu2, hu2e⟩, hj⟩
    case isFalse hc =>
      obtain ⟨⟨u2, hu2, hu2e⟩, hj⟩ := ih k lst h e he
      exact ⟨⟨u2, List.mem_cons_of_mem u hu2, hu2e⟩, hj⟩

theorem genLoop_ok_countP (journals : List JournalEntry)
    (t : Nat → Except JsError ChatResponse) :
    ∀ (us : List User) (k : Nat) (lst : List Insight),
      (genLoop journals t us k).result = .ok lst →
      ∀ x : String,
        lst.countP (fun e => e.uid = x) ≤ us.countP (fun u => u.uid = x) := by
  intro us
  induction us with
  | nil =>
    intro k lst h x
    rw [genLoop_nil] at h
    simp at h
    subst h
    simp
  | cons u rest ih =>
    intro k lst h x
    rw [List.countP_cons]
    rw [genLoop_cons_def] at h
    split at h
    case isTrue hc =>
      split at h
      case h_1 e2 heq => simp at h
      case h_2 response heq =>
        simp only [] at h
        cases hr : (genLoop journals t rest (k + 1)).result with
        | error e2 => rw [hr] at h; simp at h
        | ok lst2 =>
          rw [hr] at h
          simp only [Except.ok.injEq] at h
          by_cases hresp : response = ""
          · rw [if_pos hresp] at h
            subst h
            have := ih (k + 1) lst2 hr x
            omega
          · rw [if_neg hresp] at h
            subst h
            rw [List.countP_cons]
            have := ih (k + 1) lst2 hr x
            by_cases hx : u.uid = x
            · simp only [hx]
              omega
            · have h1 : (decide ((⟨response, u.uid⟩ : Insight).uid = x)) = false := by
                simp [hx]
              rw [h1]
              simp only [Bool.false_eq_true, if_false]
              omega
    case isFalse hc =>
      have := ih k lst h x
      omega

theorem genLoop_skip_user (journals : List JournalEntry)
    (t : Nat → Except JsError ChatResponse) (u : User)
    (h : journals.filter (fun j => strictEqStr j.uid u.uid) = []) :
    ∀ (pre post : List User) (k : Nat),
      genLoop journals t (pre ++ u :: post) k = genLoop journals t (pre ++ post) k := by
  have hlen : ¬ (userJournalsOf journals u).length > 0 := by
    simp [userJournalsOf, h]
  intro pre
  induction pre with
  | nil =>
    intro post k
    simp only [List.nil_append]
    rw [genLoop_cons_def, if_neg hlen]
  | cons p pre ih =>
    intro post k
    simp only [List.cons_append]
    rw [genLoop_cons_def, genLoop_cons_def]
    by_cases hc : (userJournalsOf journals p).length > 0
    · rw [if_pos hc, if_pos hc, ih post (k + 1)]
    · rw [if_neg hc, if_neg hc]
      exact ih post k

theorem getAllUser_error_of_missing :
    ∀ docs : List UserDoc, (∃ d ∈ docs, d.uid = none) →
      ∃ e, getAllUser docs = .error e := by
  intro docs
  induction docs with
  | nil => rintro ⟨d, hd, _⟩; simp at hd
  | cons d rest ih =>
    rintro ⟨d2, hm, hu⟩
    rcases List.mem_cons.mp hm with h | h
    · subst h
      refine ⟨JsError.typeError "Cannot read properties of undefined (reading toString)", ?_⟩
      simp [getAllUser, hu, Option.bind]
    · obtain ⟨e, he⟩ := ih ⟨d2, h, hu⟩
      cases hv : d.uid.bind jsToString with
      | none =>
        refine ⟨JsError.typeError "Cannot read properties of undefined (reading toString)", ?_⟩
        simp [getAllUser, hv]
      | some s => exact ⟨e, by simp [getAllUser, hv, he]⟩

/-! ## Claims -/

/-- C6: whenever the HTTP response has a non-success status,
`fetchInsightsFromOpenAI` raises `Error("HTTP <status>: <error.message>")`
built from the error body's `error.message`, and any raised error
(including a transport-level rejection) is logged under
"Error fetching insights:" and re-raised to the caller unchanged. -/
theorem fetch_nonsuccess_raises_and_logs :
    (∀ (resp : ChatResponse) (j : String), resp.ok = false →
       fetchInsightsFromOpenAI (.ok resp) j =
         ⟨openAIRequest j,
          [("Error fetching insights:",
            .error ("HTTP " ++ toString resp.status ++ ": " ++ resp.errorMessage))],
          .error (.error ("HTTP " ++ toString resp.status ++ ": " ++ resp.errorMessage))⟩) ∧
    (∀ (e : JsError) (j : String),
       fetchInsightsFromOpenAI (.error e) j =
         ⟨openAIRequest j, [("Error fetching insights:", e)], .error e⟩) := by
  constructor
  · intro resp j h
    simp [fetchInsightsFromOpenAI, h]
  · intro e j
    rfl

theorem fetch_nonsuccess_raises_and_logs_w :
    fetchInsightsFromOpenAI (.ok ⟨false, 401, "bad key", ""⟩) "[]" =
      ⟨openAIRequest "[]",
       [("Error fetching insights:", .error "HTTP 401: bad key")],
       .error (.error "HTTP 401: bad key")⟩ :=
  fetch_nonsuccess_raises_and_logs.1 ⟨false, 401, "bad key", ""⟩ "[]" rfl

/-- C7: for every journals JSON string, the request carries the fixed model
identifier "gpt-3.5-turbo", a max-token budget of 3000, and a single
user-role message whose content embeds the serialized journal data verbatim
between the two fixed template pieces; on a success response the raw
`choices[0].message.content` text is returned as-is, whatever it is. -/
theorem fetch_request_shape_and_raw_reply :
    (∀ j : String, openAIRequest j =
       { url := "https://api.openai.com/v1/chat/completions"
         method := "POST"
         headers := [("Content-Type", "application/json"), ("Authorization", "Bearer ")]
         body := { model := "gpt-3.5-turbo"
                   messages := [{ role := "user"
                                  content := promptHead ++ j ++ promptTail }]
                   max_tokens := 3000 } }) ∧
    (∀ (resp : ChatResponse) (j : String), resp.ok = true →
       fetchInsightsFromOpenAI (.ok resp) j = ⟨openAIRequest j, [], .ok resp.content⟩) := by
  constructor
  · intro j
    rfl
  · intro resp j h
    simp [fetchInsightsFromOpenAI, h]

theorem fetch_request_shape_and_raw_reply_w :
    fetchInsightsFromOpenAI (.ok ⟨true, 200, "", "['A', 'B', 'C'] extra text"⟩) "[]" =
      ⟨openAIRequest "[]", [], .ok "['A', 'B', 'C'] extra text"⟩ :=
  fetch_request_shape_and_raw_reply.2 ⟨true, 200, "", "['A', 'B', 'C'] extra text"⟩ "[]" rfl

/-- C8: when every document of the users collection has a coercible stored
`uid` field, `getAllUser` returns one record per document, in fetch order,
each holding the string coercion of that document's `uid` field, with no
document filtered out. -/
theorem getAllUser_maps_every_doc :
    ∀ docs : List UserDoc, (∀ d ∈ docs, (d.uid.bind jsToString).isSome = true) →
      getAllUser docs = .ok (docs.map coerceUid) := by
  intro docs
  induction docs with
  | nil => intro _; rfl
  | cons d rest ih =>
    intro h
    have hd := h d (by simp)
    have hr := ih (fun d2 hm => h d2 (by simp [hm]))
    obtain ⟨s, hs⟩ := Option.isSome_iff_exists.mp hd
    simp [getAllUser, hs, hr, coerceUid]

theorem getAllUser_maps_every_doc_w :
    getAllUser [⟨some (.str "u1")⟩, ⟨some (.num 7)⟩, ⟨some (.bool true)⟩] =
      .ok [⟨"u1"⟩, ⟨"7"⟩, ⟨"true"⟩] :=
  getAllUser_maps_every_doc
    [⟨some (.str "u1")⟩, ⟨some (.num 7)⟩, ⟨some (.bool true)⟩] (by decide)

/-- C9: if any document of the users collection has no `uid` value, the
`.toString()` coercion throws, so `getAllUser` raises an error instead of
returning a user list, and the whole invocation of `addInsights` aborts
with the generic internal error, leaving the store untouched. -/
theorem missing_uid_aborts_invocation :
    (∀ docs : List UserDoc, (∃ d ∈ docs, d.uid = none) →
       ∃ e, getAllUser docs = .error e) ∧
    (∀ (userDocs : List UserDoc) (journalDocs : List JournalDoc)
       (transport : Nat → Except JsError ChatResponse)
       (commitRes : Except JsError Unit) (now : Int) (pre : Store),
       (∃ d ∈ userDocs, d.uid = none) →
       (addInsights userDocs journalDocs transport commitRes now pre).outcome =
           .error genericFailure ∧
       ∀ k, (addInsights userDocs journalDocs transport commitRes now pre).finalStore k
              = pre k) := by
  constructor
  · exact getAllUser_error_of_missing
  · intro userDocs journalDocs transport commitRes now pre hbad
    obtain ⟨e, he⟩ := getAllUser_error_of_missing userDocs hbad
    have hres : (generateUserInsights userDocs journalDocs transport).result = .error e := by
      simp [generateUserInsights, he]
    constructor
    · simp [addInsights, hres, genericFailure]
    · intro k
      simp [addInsights, hres]

theorem missing_uid_aborts_invocation_w :
    (∃ e, getAllUser [⟨none⟩] = .error e) ∧
    (addInsights [⟨none⟩] [] (constReply "hi") (.ok ()) 0 (fun _ => none)).outcome =
      .error genericFailure :=
  ⟨missing_uid_aborts_invocation.1 [⟨none⟩] ⟨⟨none⟩, by simp, rfl⟩,
   (missing_uid_aborts_invocation.2 [⟨none⟩] [] (constReply "hi") (.ok ()) 0
      (fun _ => none) ⟨⟨none⟩, by simp, rfl⟩).1⟩

/-- C1: for every set of users and journals and any sequence of Insight
Client replies, a list returned by the Insight Generator has at most one
entry per user — the number of entries carrying any given uid never exceeds
the number of users carrying it — and an entry is present only for a uid
that strictly equals the stored uid of at least one journal entry. -/
theorem insight_list_bounded_and_journal_backed :
    ∀ (userDocs : List UserDoc) (journalDocs : List JournalDoc)
      (transport : Nat → Except JsError ChatResponse)
      (users : List User) (lst : List Insight),
      getAllUser userDocs = .ok users →
      (generateUserInsights userDocs journalDocs transport).result = .ok lst →
      (∀ x : String,
        lst.countP (fun e => e.uid = x) ≤ users.countP (fun u => u.uid = x)) ∧
      (∀ e ∈ lst, ∃ j ∈ getUsersJournals journalDocs,
        strictEqStr j.uid e.uid = true) := by
  intro userDocs journalDocs transport users lst hu hg
  simp only [generateUserInsights, hu] at hg
  exact ⟨fun x => genLoop_ok_countP _ _ users 0 lst hg x,
         fun e he => (genLoop_ok_mem _ _ users 0 lst hg e he).2⟩

theorem insight_list_bounded_and_journal_backed_w :
    List.countP (fun e => e.uid = "u1") [(⟨"hi", "u1"⟩ : Insight)] ≤
      List.countP (fun u => u.uid = "u1") [(⟨"u1"⟩ : User)] ∧
    ∃ j ∈ getUsersJournals [c2JournalDoc],
      strictEqStr j.uid (⟨"hi", "u1"⟩ : Insight).uid = true :=
  ⟨(insight_list_bounded_and_journal_backed [⟨some (.str "u1")⟩] [c2JournalDoc]
      (constReply "hi") [⟨"u1"⟩] [⟨"hi", "u1"⟩] rfl rfl).1 "u1",
   (insight_list_bounded_and_journal_backed [⟨some (.str "u1")⟩] [c2JournalDoc]
      (constReply "hi") [⟨"u1"⟩] [⟨"hi", "u1"⟩] rfl rfl).2 ⟨"hi", "u1"⟩ (by simp)⟩

/-- C5: a user whose uid strictly matches no journal entry is silently
skipped: with that user inserted anywhere in the user list, the loop's
whole outcome (requests issued, logs, returned list or error) is identical
to the outcome without that user, and no returned entry carries that
user's uid. -/
theorem user_without_matching_journals_skipped :
    ∀ (journals : List JournalEntry) (transport : Nat → Except JsError ChatResponse)
      (u : User),
      journals.filter (fun j => strictEqStr j.uid u.uid) = [] →
      (∀ (pre post : List User) (k : Nat),
        genLoop journals transport (pre ++ u :: post) k =
          genLoop journals transport (pre ++ post) k) ∧
      (∀ (us : List User) (k : Nat) (lst : List Insight),
        (genLoop journals transport us k).result = .ok lst →
        ∀ e ∈ lst, e.uid ≠ u.uid) := by
  intro journals transport u h
  refine ⟨genLoop_skip_user journals transport u h, ?_⟩
  intro us k lst hg e he hee
  obtain ⟨-, j, hjm, hjp⟩ := genLoop_ok_mem journals transport us k lst hg e he
  rw [hee] at hjp
  have := List.filter_eq_nil_iff.mp h j hjm
  simp [hjp] at this

theorem user_without_matching_journals_skipped_w :
    genLoop (getUsersJournals [c2JournalDoc]) (constReply "hi") [⟨"u1"⟩, ⟨"u2"⟩] 0 =
      genLoop (getUsersJournals [c2JournalDoc]) (constReply "hi") [⟨"u1"⟩] 0 :=
  (user_without_matching_journals_skipped (getUsersJournals [c2JournalDoc])
      (constReply "hi") ⟨"u2"⟩ (by decide)).1 [⟨"u1"⟩] [] 0

/-- C3: if the Insight Client throws while processing some user (a user
whose journal filter is non-empty and whose fetch fails), the loop stops
right there — that user's single request is the last one and users after it
in the iteration order produce no request and no insight, the loop's result
being the thrown error — and an invocation whose generation phase throws
ends with the generic internal HttpsError whose message is just
"Failed to add insights.", the store untouched, the underlying error
appearing only in the log. -/
theorem client_error_aborts_rest_and_invocation :
    (∀ (journals : List JournalEntry) (transport : Nat → Except JsError ChatResponse)
       (u : User) (rest : List User) (k : Nat) (e : JsError),
       (userJournalsOf journals u).length > 0 →
       (fetchOf journals transport u k).result = .error e →
       genLoop journals transport (u :: rest) k =
         ⟨[(fetchOf journals transport u k).request],
          (fetchOf journals transport u k).logs, .error e⟩) ∧
    (∀ (userDocs : List UserDoc) (journalDocs : List JournalDoc)
       (transport : Nat → Except JsError ChatResponse)
       (commitRes : Except JsError Unit) (now : Int) (pre : Store) (e : JsError),
       (generateUserInsights userDocs journalDocs transport).result = .error e →
       (addInsights userDocs journalDocs transport commitRes now pre).outcome =
           .error genericFailure ∧
       (∀ k, (addInsights userDocs journalDocs transport commitRes now pre).finalStore k
               = pre k) ∧
       ("Error adding insights:", e) ∈
         (addInsights userDocs journalDocs transport commitRes now pre).logs) := by
  constructor
  · intro journals transport u rest k e hc hf
    rw [genLoop_cons_def, if_pos hc, hf]
  · intro userDocs journalDocs transport commitRes now pre e hg
    refine ⟨?_, ?_, ?_⟩
    · simp [addInsights, hg, genericFailure]
    · intro k
      simp [addInsights, hg]
    · simp [addInsights, hg]

theorem client_error_aborts_rest_and_invocation_w :
    genLoop (getUsersJournals [c2JournalDoc]) (fun _ => .error (.error "boom"))
        [⟨"u1"⟩, ⟨"u2"⟩] 0 =
      ⟨[(fetchOf (getUsersJournals [c2JournalDoc]) (fun _ => .error (.error "boom"))
          ⟨"u1"⟩ 0).request],
       (fetchOf (getUsersJournals [c2JournalDoc]) (fun _ => .error (.error "boom"))
          ⟨"u1"⟩ 0).logs,
       .error (.error "boom")⟩ ∧
    (addInsights [⟨some (.str "u1")⟩] [c2JournalDoc] (fun _ => .error (.error "boom"))
        (.ok ()) 0 (fun _ => none)).outcome = .error genericFailure :=
  ⟨client_error_aborts_rest_and_invocation.1 (getUsersJournals [c2JournalDoc])
      (fun _ => .error (.error "boom")) ⟨"u1"⟩ [⟨"u2"⟩] 0 (.error "boom") (by decide) rfl,
   (client_error_aborts_rest_and_invocation.2 [⟨some (.str "u1")⟩] [c2JournalDoc]
      (fun _ => .error (.error "boom")) (.ok ()) 0 (fun _ => none) (.error "boom") rfl).1⟩

/-- C4: the write of the computed insights is all-or-nothing — on a
successful invocation the final store is exactly the whole batch applied
atomically to the prior store, and on any failed invocation the prior
store is untouched — and when the commit itself fails the caller sees only
the generic internal HttpsError while the underlying commit error goes
only to the log. -/
theorem batch_commit_all_or_nothing :
    ∀ (userDocs : List UserDoc) (journalDocs : List JournalDoc)
      (transport : Nat → Except JsError ChatResponse)
      (commitRes : Except JsError Unit) (now : Int) (pre : Store),
      ((∃ m, (addInsights userDocs journalDocs transport commitRes now pre).outcome = .ok m) →
        ∀ k, (addInsights userDocs journalDocs transport commitRes now pre).finalStore k =
          applyBatch pre (addInsights userDocs journalDocs transport commitRes now pre).batchOps k) ∧
      ((∃ e, (addInsights userDocs journalDocs transport commitRes now pre).outcome = .error e) →
        ∀ k, (addInsights userDocs journalDocs transport commitRes now pre).finalStore k = pre k) ∧
      (∀ ce, commitRes = .error ce →
        (∃ lst, (generateUserInsights userDocs journalDocs transport).result = .ok lst) →
        (addInsights userDocs journalDocs transport commitRes now pre).outcome =
            .error genericFailure ∧
        ("Error adding insights:", ce) ∈
          (addInsights userDocs journalDocs transport commitRes now pre).logs) := by
  intro userDocs journalDocs transport commitRes now pre
  cases hg : (generateUserInsights userDocs journalDocs transport).result with
  | error e =>
    refine ⟨?_, ?_, ?_⟩
    · rintro ⟨m, hm⟩
      simp [addInsights, hg] at hm
    · intro _ k
      simp [addInsights, hg]
    · rintro ce hce ⟨lst, hlst⟩
      cases hlst
  | ok lst =>
    cases commitRes with
    | ok _ =>
      refine ⟨?_, ?_, ?_⟩
      · intro _ k
        simp [addInsights, hg]
      · rintro ⟨e, he⟩
        simp [addInsights, hg] at he
      · intro ce hce
        cases hce
    | error ce0 =>
      refine ⟨?_, ?_, ?_⟩
      · rintro ⟨m, hm⟩
        simp [addInsights, hg] at hm
      · intro _ k
        simp [addInsights, hg]
      · rintro ce hce -
        cases hce
        constructor
        · simp [addInsights, hg, genericFailure]
        · simp [addInsights, hg]

theorem batch_commit_all_or_nothing_w :
    ((addInsights [⟨some (.str "u1")⟩] [c2JournalDoc] (constReply "hi") (.ok ()) 5
        (fun _ => none)).finalStore "u1" =
      applyBatch (fun _ => none)
        (addInsights [⟨some (.str "u1")⟩] [c2JournalDoc] (constReply "hi") (.ok ()) 5
          (fun _ => none)).batchOps "u1") ∧
    (addInsights [⟨some (.str "u1")⟩] [c2JournalDoc] (constReply "hi")
        (.error (.error "store down")) 5 (fun _ => none)).outcome = .error genericFailure :=
  ⟨(batch_commit_all_or_nothing [⟨some (.str "u1")⟩] [c2JournalDoc] (constReply "hi")
      (.ok ()) 5 (fun _ => none)).1 ⟨⟨"Insights added successfully."⟩, rfl⟩ "u1",
   ((batch_commit_all_or_nothing [⟨some (.str "u1")⟩] [c2JournalDoc] (constReply "hi")
      (.error (.error "store down")) 5 (fun _ => none)).2.2 (.error "store down") rfl
      ⟨[⟨"hi", "u1"⟩], rfl⟩).1⟩

/-- C10: when the computed insight list is empty the invocation still
succeeds: the batch holds no set operation, no document is written, and the
caller receives the success message rather than an error. -/
theorem empty_insight_list_still_succeeds :
    ∀ (userDocs : List UserDoc) (journalDocs : List JournalDoc)
      (transport : Nat → Except JsError ChatResponse) (now : Int) (pre : Store),
      (generateUserInsights userDocs journalDocs transport).result = .ok [] →
      (addInsights userDocs journalDocs transport (.ok ()) now pre).outcome =
          .ok ⟨"Insights added successfully."⟩ ∧
      (addInsights userDocs journalDocs transport (.ok ()) now pre).batchOps = [] ∧
      ∀ k, (addInsights userDocs journalDocs transport (.ok ()) now pre).finalStore k = pre k := by
  intro userDocs journalDocs transport now pre h
  refine ⟨?_, ?_, ?_⟩ <;> simp [addInsights, h, applyBatch]

theorem empty_insight_list_still_succeeds_w :
    (addInsights [] [] (constReply "hi") (.ok ()) 0 (fun _ => none)).outcome =
      .ok ⟨"Insights added successfully."⟩ :=
  (empty_insight_list_still_succeeds [] [] (constReply "hi") 0 (fun _ => none) rfl).1

/-- C2 fails as frozen: with the single "u1" journal of the scenario and a
client whose raw text reply is the empty string, the Insight Client is
still invoked exactly once, yet the pipeline's output is empty — it does
not contain an entry for "u1", because only a truthy (non-empty) reply is
appended to the output list. -/
theorem single_journal_scenario_empty_reply_dropped :
    (generateUserInsights [⟨some (.str "u1")⟩] [c2JournalDoc]
        (constReply "")).requests.length = 1 ∧
    (generateUserInsights [⟨some (.str "u1")⟩] [c2JournalDoc]
        (constReply "")).result = .ok [] := by
  constructor <;> rfl

/-- C2 (amended): in the scenario whose only journal is
`\x7buid:"u1", moodToday:"ok", rememberThisDayBy:"coffee",
challenges:"none"\x7d`, the Insight Client is invoked exactly once, with
the JSON string containing exactly that single record, and — provided the
client's raw text reply is truthy (non-empty) — the pipeline's output is
exactly `[\x7buid:"u1", insight: reply\x7d]`. -/
theorem single_journal_scenario_amended :
    ∀ reply : String,
      (generateUserInsights [⟨some (.str "u1")⟩] [c2JournalDoc]
          (constReply reply)).requests = [openAIRequest c2ExpectedJson] ∧
      (reply ≠ "" →
        (generateUserInsights [⟨some (.str "u1")⟩] [c2JournalDoc]
            (constReply reply)).result = .ok [⟨reply, "u1"⟩]) := by
  intro reply
  have hjson : jsonStringifyJournals (userJournalsOf (getUsersJournals [c2JournalDoc]) ⟨"u1"⟩)
      = c2ExpectedJson := by decide
  constructor
  · show (genLoop (getUsersJournals [c2JournalDoc]) (constReply reply) [⟨"u1"⟩] 0).requests =
      [openAIRequest c2ExpectedJson]
    rw [genLoop_cons_def, if_pos (by decide : (userJournalsOf (getUsersJournals [c2JournalDoc]) ⟨"u1"⟩).length > 0)]
    rw [show (fetchOf (getUsersJournals [c2JournalDoc]) (constReply reply) ⟨"u1"⟩ 0).result
          = .ok reply from rfl]
    show openAIRequest
        (jsonStringifyJournals (userJournalsOf (getUsersJournals [c2JournalDoc]) ⟨"u1"⟩)) ::
        (genLoop (getUsersJournals [c2JournalDoc]) (constReply reply) [] 1).requests =
      [openAIRequest c2ExpectedJson]
    rw [genLoop_nil, hjson]
  · intro hr
    show (genLoop (getUsersJournals [c2JournalDoc]) (constReply reply) [⟨"u1"⟩] 0).result =
      .ok [⟨reply, "u1"⟩]
    rw [genLoop_cons_def, if_pos (by decide : (userJournalsOf (getUsersJournals [c2JournalDoc]) ⟨"u1"⟩).length > 0)]
    rw [show (fetchOf (getUsersJournals [c2JournalDoc]) (constReply reply) ⟨"u1"⟩ 0).result
          = .ok reply from rfl]
    simp [genLoop_nil, hr]

theorem single_journal_scenario_amended_w :
    (generateUserInsights [⟨some (.str "u1")⟩] [c2JournalDoc]
        (constReply "You enjoy coffee.")).requests = [openAIRequest c2ExpectedJson] ∧
    (generateUserInsights [⟨some (.str "u1")⟩] [c2JournalDoc]
        (constReply "You enjoy coffee.")).result = .ok [⟨"You enjoy coffee.", "u1"⟩] :=
  ⟨(single_journal_scenario_amended "You enjoy coffee.").1,
   (single_journal_scenario_amended "You enjoy coffee.").2 (by decide)⟩
